import Mathlib

/-!
Shallow embedding of the TfL cycle-hire SDK core (`src/app.py`):
the token-strategy execution engine and the heterogeneous response
aggregators (release-code extraction and station-search reconciliation).

Python values of type `Optional[str]` are embedded as `Option String`;
Python truthiness of such a value (`if x:`) is `pyTruthy`.  Dictionary
entries that can be *absent* or *present with value None* are embedded as
`Option (Option String)` (outer layer: key presence).  Exceptions become
an explicit `SdkError` sum returned through `Except`.  The remote HTTP
call is an external collaborator and is passed in as a function from the
`(c3_encoding, c3_clienttime)` pair to its outcome; every engine run also
returns the list of `(encoding, clienttime)` pairs it actually dispatched,
so that "which strategies were attempted" is observable.
-/

set_option maxHeartbeats 1000000

/-- A single-quote character as a string (used inside error messages). -/
def sqt : String := String.mk [Char.ofNat 39]

/-- Python truthiness of an `Optional[str]` value: `None` and `""` are falsy. -/
def pyTruthy : Option String → Bool
  | none => false
  | some s => !s.isEmpty

/-- Python `a or b` on two `Optional[str]` values. -/
def pyOrElse (a b : Option String) : Option String :=
  if pyTruthy a then a else b

/-- The SDK exception taxonomy (`TflCycleHireSDKError` and subclasses).
`sdkErrorWrap` is a `TflCycleHireSDKError` raised with `from cause`. -/
inductive SdkError where
  | apiError (msg : String) : SdkError
  | sdkErrorWrap (msg : String) (cause : SdkError) : SdkError
  | dataError (msg : String) : SdkError
  | configError (msg : String) : SdkError
deriving Repr, DecidableEq

/-- The SDK's active-token fields (`_active_c3_encoding`,
`_active_original_c3_clienttime`, `_active_token_source_info`). -/
structure SdkState where
  encoding : Option String
  origTime : Option String
  sourceInfo : Option String
deriving Repr, DecidableEq

/-- `set_active_tokens(c3_encoding, original_c3_clienttime, source_info)`. -/
def setActive (e t info : String) : SdkState :=
  { encoding := some e, origTime := some t, sourceInfo := some info }

/-- `clear_active_tokens()`. -/
def clearActive : SdkState :=
  { encoding := none, origTime := none, sourceInfo := none }

/-- One entry of `static_location_data` (`DEFAULT_LOCATION_DATA`-shaped dict;
the token keys may be absent, hence `Option`). -/
structure LocDetails where
  terminal_name : String
  point_name : String
  c3_encoding : Option String
  c3_clienttime : Option String
deriving Repr, DecidableEq

/-- Lookup of a location key in the static-location table. -/
def lookupLoc (data : List (String × LocDetails)) (k : String) : Option LocDetails :=
  (data.find? (fun p => p.1 == k)).map (·.2)

/-- `prime_tokens_from_static_location(location_key)`: returns the boolean
result together with the resulting token state. -/
def primeTokens (data : List (String × LocDetails)) (key : String) (st : SdkState) :
    Bool × SdkState :=
  match lookupLoc data key with
  | none => (false, st)
  | some d =>
    match d.c3_encoding, d.c3_clienttime with
    | some e, some t =>
      (true, { encoding := some e, origTime := some t,
               sourceInfo := some ("static_example_for_" ++ key) })
    | some _, none => (false, st)
    | none, _ => (false, st)

/-- One response fragment (a `child` dict of the JSON `Children` list).
`none` means the key is absent. -/
structure Fragment where
  type : Option String := none
  id : Option String := none
  name : Option String := none
  subtitle : Option String := none
  tags : List (String × String) := []
deriving Repr, DecidableEq

/-- `tags.get(key)` on a fragment's `Tags` dict. -/
def tagsGet (tags : List (String × String)) (k : String) : Option String :=
  (tags.find? (fun p => p.1 == k)).map (·.2)

/-- The exact release-code caption scanned for by `_execute_confirm_hire_api_call`. -/
def relCaption : String := "Your cycle hire release code:"

/-- The literal part of the regex `Release code (\d+)`. -/
def relCodeLit : List Char := "Release code ".toList

/-- `re.search(r"Release code (\d+)", s)`: finds the leftmost position where
the literal is followed by at least one digit and returns the maximal digit
run captured there. -/
def searchReleaseCode : List Char → Option String
  | [] => none
  | c :: rest =>
    if relCodeLit.isPrefixOf (c :: rest) then
      let ds := ((c :: rest).drop relCodeLit.length).takeWhile Char.isDigit
      if ds.isEmpty then searchReleaseCode rest else some (String.mk ds)
    else searchReleaseCode rest

/-- First scan of `_execute_confirm_hire_api_call`: the first child whose
`Name` equals the caption and which has a `Subtitle` key; yields that
subtitle value (`break` on the first hit). -/
def scanCaption : List Fragment → Option String
  | [] => none
  | c :: rest =>
    if c.name == some relCaption && c.subtitle.isSome then c.subtitle
    else scanCaption rest

/-- Second scan of `_execute_confirm_hire_api_call`: the first child whose
`ID` ends with `_unlockbar`, has a `Name`, and whose name matches the
`Release code (\d+)` pattern; yields the captured group (the identifier
suffix test mirrors the Python `str.endswith`). -/
def scanUnlock : List Fragment → Option String
  | [] => none
  | c :: rest =>
    if "_unlockbar".toList.isSuffixOf (c.id.getD "").toList && c.name.isSome then
      match searchReleaseCode (c.name.getD "").toList with
      | some code => some code
      | none => scanUnlock rest
    else scanUnlock rest

/-- Release-code extraction of `_execute_confirm_hire_api_call` applied to a
successfully decoded `Children` list: the caption scan runs first; only when
its result is falsy does the unlockbar scan run; a falsy final value raises
`TflCycleHireDataError`. -/
def confirmHireParse (children : List Fragment) (point_name : String) :
    Except SdkError String :=
  let r1 := scanCaption children
  let r2 :=
    if pyTruthy r1 then r1
    else
      match scanUnlock children with
      | some code => some code
      | none => r1
  if pyTruthy r2 then .ok (r2.getD "")
  else .error (.dataError ("Could not find release code for " ++ point_name ++ "."))

/-- The anchored literal of the group-key regex `^(lchs_searchresult_(\d+))`. -/
def searchIdLit : String := "lchs_searchresult_"

/-- `re.match(r"^(lchs_searchresult_(\d+))", id)`: on success yields
`(group 1, group 2)` = (literal plus maximal digit run, the digit run). -/
def extractGroupKey (idStr : String) : Option (String × String) :=
  if searchIdLit.toList.isPrefixOf idStr.toList then
    let ds := (idStr.toList.drop searchIdLit.length).takeWhile Char.isDigit
    if ds.isEmpty then none else some (searchIdLit ++ String.mk ds, String.mk ds)
  else none

/-- One `station_data_aggregator` entry.  A field of type
`Option (Option String)` mirrors a dict key that may be absent (outer
`none`) or present holding a possibly-`None` value. -/
structure Entry where
  raw_station_id_from_id : String
  name : Option (Option String) := none
  subtitle : Option (Option String) := none
  dock_location : Option (Option String) := none
  station_id_from_link_tags : Option String := none
  terminal_name_from_image_tags : Option (Option String) := none
  point_name_from_image_tags : Option (Option String) := none
  station_id_from_image_tags : Option String := none
deriving Repr, DecidableEq

/-- The fresh aggregator entry created when a group key is first seen. -/
def freshEntry (parsedId : String) : Entry :=
  { raw_station_id_from_id := parsedId }

/-- The per-fragment update of an aggregator entry: the `Node.Link` branch,
the `Node.Media.Image` / `Hire now` branch, or no change. -/
def applyFragment (e : Entry) (c : Fragment) : Entry :=
  if c.type = some "Node.Link" then
    let e1 := { e with
      name := some c.name,
      subtitle := some c.subtitle,
      dock_location := some (tagsGet c.tags "LCHS.DockLocation") }
    if pyTruthy (tagsGet c.tags "LCHS.StationID") then
      { e1 with station_id_from_link_tags := tagsGet c.tags "LCHS.StationID" }
    else e1
  else if c.type = some "Node.Media.Image" ∧ c.name = some "Hire now" then
    let e1 := { e with
      terminal_name_from_image_tags := some (tagsGet c.tags "Terminal"),
      point_name_from_image_tags := some (tagsGet c.tags "PointName") }
    if pyTruthy (tagsGet c.tags "StationID") then
      { e1 with station_id_from_image_tags := tagsGet c.tags "StationID" }
    else e1
  else e

/-- Insert-or-update of the aggregator dict: a first-seen key is appended
(preserving Python dict insertion order), an existing key is updated in
place. -/
def upsertEntry : List (String × Entry) → String → String → Fragment → List (String × Entry)
  | [], k, parsedId, c => [(k, applyFragment (freshEntry parsedId) c)]
  | (k', e) :: rest, k, parsedId, c =>
    if k' = k then (k', applyFragment e c) :: rest
    else (k', e) :: upsertEntry rest k parsedId c

/-- One step of the accumulation pass: fragments whose identifier does not
match the group-key pattern are ignored. -/
def aggStep (acc : List (String × Entry)) (c : Fragment) : List (String × Entry) :=
  match extractGroupKey (c.id.getD "") with
  | none => acc
  | some (k, parsedId) => upsertEntry acc k parsedId c

/-- The accumulation phase of `_execute_search_api_call`: one pass over the
`Children` list building `station_data_aggregator`. -/
def aggregate (children : List Fragment) : List (String × Entry) :=
  children.foldl aggStep []

/-- One station of the search output (`SearchedStationInfo`); fields that
can hold `None` at runtime are `Option`. -/
structure SearchedStationInfo where
  station_id : String
  name : String
  subtitle : Option String
  terminal_name : Option String
  point_name : String
  dock_location : Option String
deriving Repr, DecidableEq

/-- The resolution phase of `_execute_search_api_call` for one aggregator
entry: priority-ordered field resolution and the emission test
`if station_id and name and point_name`. -/
def resolveEntry (e : Entry) : Option SearchedStationInfo :=
  let station_id := pyOrElse e.station_id_from_image_tags
    (pyOrElse e.station_id_from_link_tags (some e.raw_station_id_from_id))
  let name := Option.join e.name
  let point_name := pyOrElse (Option.join e.point_name_from_image_tags) name
  if pyTruthy station_id && pyTruthy name && pyTruthy point_name then
    some { station_id := station_id.getD "",
           name := name.getD "",
           subtitle := match e.subtitle with | none => some "N/A" | some v => v,
           terminal_name := Option.join e.terminal_name_from_image_tags,
           point_name := point_name.getD "",
           dock_location := Option.join e.dock_location }
  else none

/-- The full parsing logic of `_execute_search_api_call` applied to a
successfully decoded `Children` list. -/
def searchParse (children : List Fragment) : List SearchedStationInfo :=
  (aggregate children).filterMap (fun p => resolveEntry p.2)

/-- `_execute_search_api_call` downstream of the HTTP transport: a transport
failure propagates, a successful response is parsed (parsing never raises). -/
def executeSearchApiCall (transport : Except SdkError (List Fragment)) :
    Except SdkError (List SearchedStationInfo) :=
  match transport with
  | .error e => .error e
  | .ok children => .ok (searchParse children)

/-- One step of the first-seen-key scan. -/
def keyStep (acc : List String) (c : Fragment) : List String :=
  match extractGroupKey (c.id.getD "") with
  | none => acc
  | some (k, _) => if k ∈ acc then acc else acc ++ [k]

/-- The first-seen order of group keys in a fragment scan (used to state the
output-order property). -/
def firstSeenKeys (children : List Fragment) : List String :=
  children.foldl keyStep []

/-- Outcome of one strategy-engine run: the returned value or raised error,
the final token state, and the trace of `(encoding, clienttime)` pairs that
were dispatched to the remote call, in order. -/
def OpOutcome (α : Type) : Type :=
  Except SdkError α × SdkState × List (String × String)

/-- `get_release_code_with_explicit_tokens`. -/
def runExplicitRelease (remote : String → String → Except SdkError String)
    (point_name c3_encoding c3_clienttime : String)
    (update_active_tokens_on_success : Bool) (st : SdkState) : OpOutcome String :=
  match remote c3_encoding c3_clienttime with
  | .ok code =>
    (.ok code,
     if update_active_tokens_on_success then
       setActive c3_encoding c3_clienttime ("explicit_call_for_" ++ point_name)
     else st,
     [(c3_encoding, c3_clienttime)])
  | .error e => (.error e, st, [(c3_encoding, c3_clienttime)])

/-- Fallthrough of `get_release_code_for_static_location`: all strategies
exhausted. -/
def staticFinal (location_key : String) (st : SdkState) (lastError : Option SdkError)
    (tr : List (String × String)) : OpOutcome String :=
  let finalMsg := "All token strategies failed for static location " ++ sqt
    ++ location_key ++ sqt ++ "."
  match lastError with
  | some e => (.error (.sdkErrorWrap finalMsg e), st, tr)
  | none =>
    (.error (.configError (finalMsg ++ " No valid strategies enabled or configured.")),
     st, tr)

/-- Strategy 3 of `get_release_code_for_static_location`: static/example
tokens of the target location. -/
def staticStrat3 (remote : String → String → Except SdkError String)
    (location_key : String) (loc : LocDetails) (try_static_location_tokens : Bool)
    (st : SdkState) (lastError : Option SdkError) (tr : List (String × String)) :
    OpOutcome String :=
  if try_static_location_tokens then
    match loc.c3_encoding, loc.c3_clienttime with
    | some e, some t =>
      (match remote e t with
       | .ok code =>
         (.ok code, setActive e t ("static_example_for_" ++ location_key),
          tr ++ [(e, t)])
       | .error er => staticFinal location_key st (some er) (tr ++ [(e, t)]))
    | some _, none => staticFinal location_key st lastError tr
    | none, _ => staticFinal location_key st lastError tr
  else staticFinal location_key st lastError tr

/-- Strategy 2 of `get_release_code_for_static_location`: active encoding
with fresh client time. -/
def staticStrat2 (remote : String → String → Except SdkError String)
    (location_key : String) (loc : LocDetails) (freshTime : String)
    (try_active_fresh_time try_static_location_tokens : Bool)
    (st : SdkState) (lastError : Option SdkError) (tr : List (String × String)) :
    OpOutcome String :=
  if try_active_fresh_time && pyTruthy st.encoding then
    match remote (st.encoding.getD "") freshTime with
    | .ok code =>
      (.ok code,
       setActive (st.encoding.getD "") freshTime
         ("active_encoding_fresh_time_for_static_" ++ location_key),
       tr ++ [(st.encoding.getD "", freshTime)])
    | .error er =>
      staticStrat3 remote location_key loc try_static_location_tokens st (some er)
        (tr ++ [(st.encoding.getD "", freshTime)])
  else staticStrat3 remote location_key loc try_static_location_tokens st lastError tr

/-- `get_release_code_for_static_location`. -/
def runStaticRelease (remote : String → String → Except SdkError String)
    (data : List (String × LocDetails)) (freshTime location_key : String)
    (try_active_original_time try_active_fresh_time try_static_location_tokens : Bool)
    (st : SdkState) : OpOutcome String :=
  match lookupLoc data location_key with
  | none =>
    (.error (.configError ("Static location key " ++ sqt ++ location_key ++ sqt
       ++ " not found in SDK" ++ sqt ++ "s static_location_data.")), st, [])
  | some loc =>
    if try_active_original_time && pyTruthy st.encoding && pyTruthy st.origTime then
      match remote (st.encoding.getD "") (st.origTime.getD "") with
      | .ok code => (.ok code, st, [(st.encoding.getD "", st.origTime.getD "")])
      | .error er =>
        staticStrat2 remote location_key loc freshTime try_active_fresh_time
          try_static_location_tokens st (some er)
          [(st.encoding.getD "", st.origTime.getD "")]
    else
      staticStrat2 remote location_key loc freshTime try_active_fresh_time
        try_static_location_tokens st none []

/-- Fallthrough of `search_stations`: all strategies exhausted. -/
def searchFinal (search_text : String) (st : SdkState) (lastError : Option SdkError)
    (tr : List (String × String)) : OpOutcome (List SearchedStationInfo) :=
  let finalMsg := "All token strategies failed for search_stations with query "
    ++ sqt ++ search_text ++ sqt ++ "."
  match lastError with
  | some e => (.error (.sdkErrorWrap finalMsg e), st, tr)
  | none =>
    (.error (.configError (finalMsg
       ++ " No token strategies enabled or active/primeable tokens available.")),
     st, tr)

/-- Strategy 2 of `search_stations`: active encoding with fresh client time. -/
def searchStrat2 (remote : String → String → Except SdkError (List SearchedStationInfo))
    (search_text freshTime : String) (try_active_fresh_time : Bool)
    (st : SdkState) (lastError : Option SdkError) (tr : List (String × String)) :
    OpOutcome (List SearchedStationInfo) :=
  if try_active_fresh_time && pyTruthy st.encoding then
    match remote (st.encoding.getD "") freshTime with
    | .ok results =>
      (.ok results,
       setActive (st.encoding.getD "") freshTime
         ("active_encoding_fresh_time_for_search_" ++ search_text),
       tr ++ [(st.encoding.getD "", freshTime)])
    | .error er =>
      searchFinal search_text st (some er) (tr ++ [(st.encoding.getD "", freshTime)])
  else searchFinal search_text st lastError tr

/-- Strategy 1 of `search_stations`: active tokens with original client time. -/
def searchStrat1 (remote : String → String → Except SdkError (List SearchedStationInfo))
    (search_text freshTime : String)
    (try_active_original_time try_active_fresh_time : Bool) (st : SdkState) :
    OpOutcome (List SearchedStationInfo) :=
  if try_active_original_time && pyTruthy st.encoding && pyTruthy st.origTime then
    match remote (st.encoding.getD "") (st.origTime.getD "") with
    | .ok results => (.ok results, st, [(st.encoding.getD "", st.origTime.getD "")])
    | .error er =>
      searchStrat2 remote search_text freshTime try_active_fresh_time st (some er)
        [(st.encoding.getD "", st.origTime.getD "")]
  else searchStrat2 remote search_text freshTime try_active_fresh_time st none []

/-- `search_stations`. -/
def runSearchStations
    (remote : String → String → Except SdkError (List SearchedStationInfo))
    (data : List (String × LocDetails)) (freshTime search_text : String)
    (c3_encoding_override c3_clienttime_override : Option String)
    (try_active_original_time try_active_fresh_time : Bool)
    (prime_from_static_if_no_active : Option String) (st : SdkState) :
    OpOutcome (List SearchedStationInfo) :=
  if pyTruthy c3_encoding_override && pyTruthy c3_clienttime_override then
    match remote (c3_encoding_override.getD "") (c3_clienttime_override.getD "") with
    | .ok results =>
      (.ok results,
       setActive (c3_encoding_override.getD "") (c3_clienttime_override.getD "")
         ("explicit_override_for_search_" ++ search_text),
       [(c3_encoding_override.getD "", c3_clienttime_override.getD "")])
    | .error er =>
      (.error (.sdkErrorWrap ("Explicit token override failed for search " ++ sqt
         ++ search_text ++ sqt ++ ".") er),
       st,
       [(c3_encoding_override.getD "", c3_clienttime_override.getD "")])
  else
    let st1 :=
      if pyTruthy prime_from_static_if_no_active && !pyTruthy st.encoding then
        (primeTokens data (prime_from_static_if_no_active.getD "") st).2
      else st
    searchStrat1 remote search_text freshTime try_active_original_time
      try_active_fresh_time st1

/-- Fallthrough of `get_release_code_for_searched_station`. -/
def searchedFinal (stationName : String) (st : SdkState) (lastError : Option SdkError)
    (tr : List (String × String)) : OpOutcome String :=
  let finalMsg := "All smart token strategies failed for searched station "
    ++ sqt ++ stationName ++ sqt ++ "."
  match lastError with
  | some e => (.error (.sdkErrorWrap finalMsg e), st, tr)
  | none =>
    (.error (.configError (finalMsg
       ++ " No token strategies enabled or active tokens available.")),
     st, tr)

/-- Strategy 2 of `get_release_code_for_searched_station`. -/
def searchedStrat2 (remote : String → String → Except SdkError String)
    (stationName freshTime : String) (try_active_fresh_time : Bool)
    (st : SdkState) (lastError : Option SdkError) (tr : List (String × String)) :
    OpOutcome String :=
  if try_active_fresh_time && pyTruthy st.encoding then
    match remote (st.encoding.getD "") freshTime with
    | .ok code =>
      (.ok code,
       setActive (st.encoding.getD "") freshTime
         ("active_encoding_fresh_time_for_searched_" ++ stationName),
       tr ++ [(st.encoding.getD "", freshTime)])
    | .error er =>
      searchedFinal stationName st (some er) (tr ++ [(st.encoding.getD "", freshTime)])
  else searchedFinal stationName st lastError tr

/-- Strategy 1 of `get_release_code_for_searched_station`. -/
def searchedStrat1 (remote : String → String → Except SdkError String)
    (stationName freshTime : String)
    (try_active_original_time try_active_fresh_time : Bool) (st : SdkState) :
    OpOutcome String :=
  if try_active_original_time && pyTruthy st.encoding && pyTruthy st.origTime then
    match remote (st.encoding.getD "") (st.origTime.getD "") with
    | .ok code => (.ok code, st, [(st.encoding.getD "", st.origTime.getD "")])
    | .error er =>
      searchedStrat2 remote stationName freshTime try_active_fresh_time st (some er)
        [(st.encoding.getD "", st.origTime.getD "")]
  else searchedStrat2 remote stationName freshTime try_active_fresh_time st none []

/-- `get_release_code_for_searched_station`. -/
def runSearchedRelease (remote : String → String → Except SdkError String)
    (freshTime : String) (station : SearchedStationInfo)
    (c3_encoding_override c3_clienttime_override : Option String)
    (try_active_original_time try_active_fresh_time : Bool) (st : SdkState) :
    OpOutcome String :=
  if !pyTruthy station.terminal_name then
    (.error (.configError ("Cannot get release code for " ++ sqt ++ station.name
       ++ sqt ++ ": TerminalName is missing (station likely not hirable).")), st, [])
  else if pyTruthy c3_encoding_override && pyTruthy c3_clienttime_override then
    match remote (c3_encoding_override.getD "") (c3_clienttime_override.getD "") with
    | .ok code =>
      (.ok code,
       setActive (c3_encoding_override.getD "") (c3_clienttime_override.getD "")
         ("override_for_" ++ station.name),
       [(c3_encoding_override.getD "", c3_clienttime_override.getD "")])
    | .error er =>
      (.error (.sdkErrorWrap ("Explicit token override failed for "
         ++ station.name ++ ".") er),
       st,
       [(c3_encoding_override.getD "", c3_clienttime_override.getD "")])
  else
    searchedStrat1 remote station.name freshTime try_active_original_time
      try_active_fresh_time st

/-- Concrete accumulator entry used as a witness input: every field populated. -/
def eC5 : Entry :=
  { raw_station_id_from_id := "5", name := some (some "N0"),
    subtitle := some (some "S0"), dock_location := some (some "D0"),
    station_id_from_link_tags := some "11",
    terminal_name_from_image_tags := some (some "T0"),
    point_name_from_image_tags := some (some "P0"),
    station_id_from_image_tags := some "22" }

/-- Concrete link-kind fragment used as a witness input. -/
def linkA5 : Fragment :=
  { type := some "Node.Link", id := some "lchs_searchresult_5_a",
    name := some "A", subtitle := some "3 bikes",
    tags := [("LCHS.StationID", "77"), ("LCHS.DockLocation", "51.5,-0.1")] }

/-- Concrete link-kind fragment without tags used as a witness input. -/
def linkB5 : Fragment :=
  { type := some "Node.Link", name := some "B" }

/-- Concrete image-kind fragment used as a witness input. -/
def imgA5 : Fragment :=
  { type := some "Node.Media.Image", name := some "Hire now",
    tags := [("Terminal", "300100"), ("PointName", "P1"), ("StationID", "88")] }

/-- Concrete image-kind fragment with only a point name used as a witness input. -/
def imgB5 : Fragment :=
  { type := some "Node.Media.Image", name := some "Hire now",
    tags := [("PointName", "P2")] }

/-- Resolution of one aggregated group written from the spec wording, for
comparison with the code-derived `resolveEntry`: stationId is the image-tag
id if present, else the link-tag id, else the numeric id parsed from the
group key; pointName is the image-tag point name if it carries a non-empty
value, else the link name; the record is emitted only when stationId, name
and pointName are all non-empty, otherwise the group is dropped. -/
def specResolveStation (e : Entry) : Option SearchedStationInfo :=
  let stationId : String :=
    match e.station_id_from_image_tags with
    | some s => s
    | none =>
      match e.station_id_from_link_tags with
      | some s => s
      | none => e.raw_station_id_from_id
  let nm : String := (Option.join e.name).getD ""
  let pointName : String :=
    match Option.join e.point_name_from_image_tags with
    | some p => if p = "" then nm else p
    | none => nm
  if stationId = "" ∨ nm = "" ∨ pointName = "" then none
  else
    some { station_id := stationId, name := nm,
           subtitle := match e.subtitle with | none => some "N/A" | some v => v,
           terminal_name := Option.join e.terminal_name_from_image_tags,
           point_name := pointName,
           dock_location := Option.join e.dock_location }

/-- Invariant of aggregator entries: the alternate station-id tag fields
are only ever populated with non-empty strings (they are written under a
truthiness guard). -/
def entryTagsOk (e : Entry) : Prop :=
  (∀ s, e.station_id_from_link_tags = some s → s ≠ "") ∧
  (∀ s, e.station_id_from_image_tags = some s → s ≠ "")

/-- Invariant linking the strategy engine's last recorded error to its
attempt trace: either nothing was attempted yet, or the recorded error is
the remote failure of the last dispatched attempt. -/
def linkedTrace (f : String → String → SdkError) (lastError : Option SdkError)
    (tr : List (String × String)) : Prop :=
  (lastError = none ∧ tr = []) ∨
  (∃ p, tr.getLast? = some p ∧ lastError = some (f p.1 p.2))

/-- Shape of an engine outcome when every remote attempt fails with the
error given by `f`: a configuration error with an empty attempt trace, or a
wrapping error carrying the failure of the last dispatched attempt. -/
def exhaustedShape {α : Type} (f : String → String → SdkError)
    (res : Except SdkError α) (tr : List (String × String)) : Prop :=
  (tr = [] ∧ ∃ m, res = .error (.configError m)) ∨
  (∃ p, tr.getLast? = some p ∧ ∃ m, res = .error (.sdkErrorWrap m (f p.1 p.2)))

/-- Concrete fragment list used as a witness input: a link fragment and an
image fragment sharing one group key. -/
def fragsC4 : List Fragment :=
  [{ type := some "Node.Link", id := some "lchs_searchresult_7_a",
     name := some "Kings Cross", subtitle := some "12 bikes" },
   { type := some "Node.Media.Image", id := some "lchs_searchresult_7_b",
     name := some "Hire now",
     tags := [("Terminal", "300100"), ("PointName", "KX Station Rd")] }]

/-- The single station record reconciled from `fragsC4`. -/
def recC4 : SearchedStationInfo :=
  { station_id := "7", name := "Kings Cross", subtitle := some "12 bikes",
    terminal_name := some "300100", point_name := "KX Station Rd",
    dock_location := none }

/-! Helper lemmas -/

lemma aggregate_eq_nil (children : List Fragment)
    (h : ∀ c ∈ children, extractGroupKey (c.id.getD "") = none) :
    aggregate children = [] := by
  induction children with
  | nil => rfl
  | cons c cs ih =>
    have hc := h c (List.mem_cons_self c cs)
    have hcs := ih (fun x hx => h x (List.mem_cons_of_mem c hx))
    simpa [aggregate, List.foldl_cons, aggStep, hc] using hcs

lemma upsertEntry_keys (acc : List (String × Entry)) (k pid : String) (c : Fragment) :
    (upsertEntry acc k pid c).map Prod.fst =
      if k ∈ acc.map Prod.fst then acc.map Prod.fst else acc.map Prod.fst ++ [k] := by
  induction acc with
  | nil => simp [upsertEntry]
  | cons p rest ih =>
    obtain ⟨k', e⟩ := p
    by_cases h : k' = k
    · subst h; simp [upsertEntry]
    · rw [show upsertEntry ((k', e) :: rest) k pid c
            = (k', e) :: upsertEntry rest k pid c by simp [upsertEntry, h]]
      simp only [List.map_cons]
      rw [ih]
      by_cases hm : k ∈ rest.map Prod.fst <;>
        simp [hm, List.mem_cons, Ne.symm h]

lemma aggregate_keys_aux (children : List Fragment) :
    ∀ (acc : List (String × Entry)),
      (children.foldl aggStep acc).map Prod.fst =
        children.foldl keyStep (acc.map Prod.fst) := by
  induction children with
  | nil => intro acc; rfl
  | cons c cs ih =>
    intro acc
    rw [List.foldl_cons, List.foldl_cons, ih]
    congr 1
    unfold aggStep keyStep
    cases hk : extractGroupKey (c.id.getD "") with
    | none => rfl
    | some kp =>
      obtain ⟨k, pid⟩ := kp
      simp [upsertEntry_keys]

/-! Claim theorems -/

/-- C10: for every location key not present in the known-location table,
`prime_tokens_from_static_location` returns `False` and leaves all three
active-token fields exactly as they were before the call. -/
theorem C10_prime_unknown_key_no_change (data : List (String × LocDetails))
    (key : String) (st : SdkState) (h : lookupLoc data key = none) :
    primeTokens data key st = (false, st) := by
  simp [primeTokens, h]

/-- Witness for C10 at a concrete empty table and non-empty token state. -/
theorem C10_prime_unknown_key_no_change_witness :
    lookupLoc [] "holborn" = none ∧
    primeTokens [] "holborn"
        { encoding := some "E", origTime := some "T", sourceInfo := some "user_set" } =
      (false, { encoding := some "E", origTime := some "T", sourceInfo := some "user_set" }) :=
  ⟨rfl, C10_prime_unknown_key_no_change [] "holborn" _ rfl⟩

/-- C9: for every successful transport response whose fragment list contains
no fragment matching the group-key pattern (including the empty list),
station-search reconciliation returns the empty record list and no error. -/
theorem C9_no_matching_fragment_empty_success (children : List Fragment)
    (h : ∀ c ∈ children, extractGroupKey (c.id.getD "") = none) :
    searchParse children = [] ∧ executeSearchApiCall (.ok children) = .ok [] := by
  have ha := aggregate_eq_nil children h
  exact ⟨by simp [searchParse, ha], by simp [executeSearchApiCall, searchParse, ha]⟩

/-- Witness for C9 at a fragment list holding only unrelated UI chrome. -/
theorem C9_no_matching_fragment_empty_success_witness :
    searchParse [{ id := some "page_header" }, { type := some "Node.Link" }] = [] ∧
    executeSearchApiCall (.ok [{ id := some "page_header" }, { type := some "Node.Link" }]) =
      .ok [] :=
  C9_no_matching_fragment_empty_success _ (by decide)

/-- C2 (amended): an explicit-override success overwrites the token cache
with exactly the override pair and an explicit-origin source label, for
`search_stations` and `get_release_code_for_searched_station` always, and
for `get_release_code_with_explicit_tokens` when its
`update_active_tokens_on_success` flag is true (its default). -/
theorem C2_explicit_success_overwrites_cache
    (remoteC remoteC2 : String → String → Except SdkError String)
    (remoteS : String → String → Except SdkError (List SearchedStationInfo))
    (data : List (String × LocDetails))
    (freshTime search_text point_name enc t code code2 : String)
    (results : List SearchedStationInfo) (ovE ovT : Option String)
    (station : SearchedStationInfo) (b1 b2 : Bool) (pk : Option String)
    (st : SdkState)
    (hExpl : remoteC enc t = .ok code)
    (hE : pyTruthy ovE = true) (hT : pyTruthy ovT = true)
    (hS : remoteS (ovE.getD "") (ovT.getD "") = .ok results)
    (hTerm : pyTruthy station.terminal_name = true)
    (hC2 : remoteC2 (ovE.getD "") (ovT.getD "") = .ok code2) :
    runExplicitRelease remoteC point_name enc t true st =
      (.ok code, setActive enc t ("explicit_call_for_" ++ point_name), [(enc, t)]) ∧
    runSearchStations remoteS data freshTime search_text ovE ovT b1 b2 pk st =
      (.ok results,
       setActive (ovE.getD "") (ovT.getD "")
         ("explicit_override_for_search_" ++ search_text),
       [(ovE.getD "", ovT.getD "")]) ∧
    runSearchedRelease remoteC2 freshTime station ovE ovT b1 b2 st =
      (.ok code2,
       setActive (ovE.getD "") (ovT.getD "") ("override_for_" ++ station.name),
       [(ovE.getD "", ovT.getD "")]) := by
  refine ⟨by simp [runExplicitRelease, hExpl], ?_, ?_⟩
  · simp [runSearchStations, hE, hT, hS]
  · simp [runSearchedRelease, hTerm, hE, hT, hC2]

/-- Witness for C2 at concrete remotes, overrides and a hirable station. -/
theorem C2_explicit_success_overwrites_cache_witness :
    runExplicitRelease (fun _ _ => .ok "4821") "Cromer Street" "E" "T" true clearActive =
      (.ok "4821", setActive "E" "T" "explicit_call_for_Cromer Street", [("E", "T")]) ∧
    runSearchStations (fun _ _ => .ok []) [] "1.5" "soho" (some "E") (some "T")
        true true none clearActive =
      (.ok [], setActive "E" "T" "explicit_override_for_search_soho", [("E", "T")]) ∧
    runSearchedRelease (fun _ _ => .ok "9013") "1.5"
        { station_id := "7", name := "Soho Sq", subtitle := none,
          terminal_name := some "300100", point_name := "Soho Sq",
          dock_location := none }
        (some "E") (some "T") true true clearActive =
      (.ok "9013", setActive "E" "T" "override_for_Soho Sq", [("E", "T")]) :=
  by refine C2_explicit_success_overwrites_cache _ _ _ _ _ _ _ _ _ _ _ _ _ _ _ _ _ _ _
       ?_ ?_ ?_ ?_ ?_ ?_ <;> rfl

/-- C2 counterexample: with `update_active_tokens_on_success=False`, a
successful `get_release_code_with_explicit_tokens` call does not overwrite
the token cache, so the overwrite is not unconditional over every
combination of that operation's parameters. -/
theorem C2_counterexample :
    (runExplicitRelease (fun _ _ => .ok "1234") "Cromer Street" "ENC"
        "1748480905.359684" false clearActive).1 = .ok "1234" ∧
    (runExplicitRelease (fun _ _ => .ok "1234") "Cromer Street" "ENC"
        "1748480905.359684" false clearActive).2.1 = clearActive ∧
    clearActive.encoding ≠ some "ENC" :=
  ⟨rfl, rfl, by simp [clearActive]⟩

/-- C1: when both override tokens are supplied (truthy) and the remote
attempt with them fails, `search_stations` and
`get_release_code_for_searched_station` fail immediately with an error
wrapping that failure, the token state untouched, having dispatched exactly
one attempt (no cache-based fallback). -/
theorem C1_override_failure_aborts
    (remoteS : String → String → Except SdkError (List SearchedStationInfo))
    (remoteC : String → String → Except SdkError String)
    (data : List (String × LocDetails)) (freshTime search_text : String)
    (ovE ovT : Option String) (b1 b2 : Bool) (pk : Option String)
    (station : SearchedStationInfo) (st : SdkState) (errS errC : SdkError)
    (hE : pyTruthy ovE = true) (hT : pyTruthy ovT = true)
    (hS : remoteS (ovE.getD "") (ovT.getD "") = .error errS)
    (hTerm : pyTruthy station.terminal_name = true)
    (hC : remoteC (ovE.getD "") (ovT.getD "") = .error errC) :
    runSearchStations remoteS data freshTime search_text ovE ovT b1 b2 pk st =
      (.error (.sdkErrorWrap ("Explicit token override failed for search " ++ sqt
         ++ search_text ++ sqt ++ ".") errS),
       st, [(ovE.getD "", ovT.getD "")]) ∧
    runSearchedRelease remoteC freshTime station ovE ovT b1 b2 st =
      (.error (.sdkErrorWrap ("Explicit token override failed for "
         ++ station.name ++ ".") errC),
       st, [(ovE.getD "", ovT.getD "")]) := by
  constructor
  · simp [runSearchStations, hE, hT, hS]
  · simp [runSearchedRelease, hTerm, hE, hT, hC]

/-- Witness for C1 at a concrete always-failing remote. -/
theorem C1_override_failure_aborts_witness :
    runSearchStations (fun _ _ => .error (.apiError "401")) [] "1.5" "soho"
        (some "E") (some "T") true true none clearActive =
      (.error (.sdkErrorWrap ("Explicit token override failed for search " ++ sqt
         ++ "soho" ++ sqt ++ ".") (.apiError "401")),
       clearActive, [("E", "T")]) ∧
    runSearchedRelease (fun _ _ => .error (.apiError "401")) "1.5"
        { station_id := "7", name := "Soho Sq", subtitle := none,
          terminal_name := some "300100", point_name := "Soho Sq",
          dock_location := none }
        (some "E") (some "T") true true clearActive =
      (.error (.sdkErrorWrap ("Explicit token override failed for Soho Sq.")
         (.apiError "401")),
       clearActive, [("E", "T")]) :=
  by refine C1_override_failure_aborts _ _ _ _ _ _ _ _ _ _ _ _ _ _ ?_ ?_ ?_ ?_ ?_ <;> rfl

/-- C8: whenever the active-cache/original-time strategy is attempted and
the remote call succeeds, each operation returns that success with the
token state exactly as it was at the start of the attempt, after exactly
that one attempt. -/
theorem C8_original_time_success_no_mutation
    (remoteC remoteC2 : String → String → Except SdkError String)
    (remoteS : String → String → Except SdkError (List SearchedStationInfo))
    (data : List (String × LocDetails))
    (freshTime location_key search_text : String) (loc : LocDetails)
    (t2 t3 : Bool) (ovE ovT ovE2 ovT2 : Option String) (pk : Option String)
    (station : SearchedStationInfo) (st : SdkState) (code code2 : String)
    (results : List SearchedStationInfo)
    (hloc : lookupLoc data location_key = some loc)
    (hE : pyTruthy st.encoding = true) (hT : pyTruthy st.origTime = true)
    (h1 : remoteC (st.encoding.getD "") (st.origTime.getD "") = .ok code)
    (hov : (pyTruthy ovE && pyTruthy ovT) = false)
    (h2 : remoteS (st.encoding.getD "") (st.origTime.getD "") = .ok results)
    (hTerm : pyTruthy station.terminal_name = true)
    (hov2 : (pyTruthy ovE2 && pyTruthy ovT2) = false)
    (h3 : remoteC2 (st.encoding.getD "") (st.origTime.getD "") = .ok code2) :
    runStaticRelease remoteC data freshTime location_key true t2 t3 st =
      (.ok code, st, [(st.encoding.getD "", st.origTime.getD "")]) ∧
    runSearchStations remoteS data freshTime search_text ovE ovT true t2 pk st =
      (.ok results, st, [(st.encoding.getD "", st.origTime.getD "")]) ∧
    runSearchedRelease remoteC2 freshTime station ovE2 ovT2 true t2 st =
      (.ok code2, st, [(st.encoding.getD "", st.origTime.getD "")]) := by
  refine ⟨?_, ?_, ?_⟩
  · simp [runStaticRelease, hloc, hE, hT, h1]
  · simp [runSearchStations, hov, hE, searchStrat1, hT, h2]
  · simp [runSearchedRelease, hTerm, hov2, searchedStrat1, hE, hT, h3]

/-- Witness for C8 at a concrete populated token state. -/
theorem C8_original_time_success_no_mutation_witness :
    runStaticRelease (fun _ _ => .ok "4821")
        [("cromer_street",
          { terminal_name := "300205", point_name := "Cromer Street",
            c3_encoding := some "SE", c3_clienttime := some "ST" })]
        "1.5" "cromer_street" true true true
        { encoding := some "E", origTime := some "T", sourceInfo := some "user_set" } =
      (.ok "4821",
       { encoding := some "E", origTime := some "T", sourceInfo := some "user_set" },
       [("E", "T")]) ∧
    runSearchStations (fun _ _ => .ok []) [] "1.5" "soho" none none true true
        none { encoding := some "E", origTime := some "T", sourceInfo := some "user_set" } =
      (.ok [],
       { encoding := some "E", origTime := some "T", sourceInfo := some "user_set" },
       [("E", "T")]) ∧
    runSearchedRelease (fun _ _ => .ok "9013") "1.5"
        { station_id := "7", name := "Soho Sq", subtitle := none,
          terminal_name := some "300100", point_name := "Soho Sq",
          dock_location := none }
        none none true true
        { encoding := some "E", origTime := some "T", sourceInfo := some "user_set" } =
      (.ok "9013",
       { encoding := some "E", origTime := some "T", sourceInfo := some "user_set" },
       [("E", "T")]) := by
  exact C8_original_time_success_no_mutation
    (fun _ _ => .ok "4821") (fun _ _ => .ok "9013") (fun _ _ => .ok [])
    [("cromer_street",
      { terminal_name := "300205", point_name := "Cromer Street",
        c3_encoding := some "SE", c3_clienttime := some "ST" })]
    "1.5" "cromer_street" "soho"
    { terminal_name := "300205", point_name := "Cromer Street",
      c3_encoding := some "SE", c3_clienttime := some "ST" }
    true true none none none none none
    { station_id := "7", name := "Soho Sq", subtitle := none,
      terminal_name := some "300100", point_name := "Soho Sq",
      dock_location := none }
    { encoding := some "E", origTime := some "T", sourceInfo := some "user_set" }
    "4821" "9013" []
    rfl rfl rfl rfl rfl rfl rfl rfl rfl

/-- C6: the station records produced by search reconciliation follow the
first-seen order of group keys during the fragment scan: the aggregator's
iteration order is exactly `firstSeenKeys`, and the output is the in-order
filter-map of the aggregator (no re-sort by name or id). -/
theorem C6_insertion_order (children : List Fragment) :
    (aggregate children).map Prod.fst = firstSeenKeys children ∧
    searchParse children = (aggregate children).filterMap (fun p => resolveEntry p.2) :=
  ⟨by simpa [aggregate, firstSeenKeys] using aggregate_keys_aux children [], rfl⟩

/-- C5: during accumulation, within a kind later fragments overwrite the
fields written by earlier fragments of that kind (the alternate station-id
tag being written only when truthy, so the last actual write wins), while a
link-kind fragment never changes any image-kind field and an image-kind
fragment never changes any link-kind field. -/
theorem C5_last_write_wins_kind_isolation (e : Entry) (c c1 c2 : Fragment) :
    (c.type = some "Node.Link" →
       (applyFragment e c).terminal_name_from_image_tags
           = e.terminal_name_from_image_tags ∧
       (applyFragment e c).point_name_from_image_tags = e.point_name_from_image_tags ∧
       (applyFragment e c).station_id_from_image_tags
           = e.station_id_from_image_tags) ∧
    (c.type = some "Node.Media.Image" → c.name = some "Hire now" →
       (applyFragment e c).name = e.name ∧
       (applyFragment e c).subtitle = e.subtitle ∧
       (applyFragment e c).dock_location = e.dock_location ∧
       (applyFragment e c).station_id_from_link_tags = e.station_id_from_link_tags) ∧
    (c1.type = some "Node.Link" → c2.type = some "Node.Link" →
       (applyFragment (applyFragment e c1) c2).name = some c2.name ∧
       (applyFragment (applyFragment e c1) c2).subtitle = some c2.subtitle ∧
       (applyFragment (applyFragment e c1) c2).dock_location
           = some (tagsGet c2.tags "LCHS.DockLocation") ∧
       (applyFragment (applyFragment e c1) c2).station_id_from_link_tags
           = (if pyTruthy (tagsGet c2.tags "LCHS.StationID") then
                tagsGet c2.tags "LCHS.StationID"
              else if pyTruthy (tagsGet c1.tags "LCHS.StationID") then
                tagsGet c1.tags "LCHS.StationID"
              else e.station_id_from_link_tags)) ∧
    (c1.type = some "Node.Media.Image" → c1.name = some "Hire now" →
     c2.type = some "Node.Media.Image" → c2.name = some "Hire now" →
       (applyFragment (applyFragment e c1) c2).terminal_name_from_image_tags
           = some (tagsGet c2.tags "Terminal") ∧
       (applyFragment (applyFragment e c1) c2).point_name_from_image_tags
           = some (tagsGet c2.tags "PointName") ∧
       (applyFragment (applyFragment e c1) c2).station_id_from_image_tags
           = (if pyTruthy (tagsGet c2.tags "StationID") then
                tagsGet c2.tags "StationID"
              else if pyTruthy (tagsGet c1.tags "StationID") then
                tagsGet c1.tags "StationID"
              else e.station_id_from_image_tags)) := by
  refine ⟨?_, ?_, ?_, ?_⟩
  · intro h
    simp only [applyFragment, h]
    split_ifs <;> simp
  · intro h hn
    simp only [applyFragment, h, hn]
    split_ifs <;> simp_all
  · intro h1 h2
    simp only [applyFragment, h1, h2]
    split_ifs <;> simp_all
  · intro h1 hn1 h2 hn2
    simp only [applyFragment, h1, hn1, h2, hn2]
    split_ifs <;> simp_all

/-- Witness for C5 at concrete link and image fragment pairs over a fully
populated accumulator entry. -/
theorem C5_last_write_wins_kind_isolation_witness :
    ((applyFragment eC5 linkA5).terminal_name_from_image_tags = some (some "T0") ∧
     (applyFragment eC5 linkA5).point_name_from_image_tags = some (some "P0") ∧
     (applyFragment eC5 linkA5).station_id_from_image_tags = some "22") ∧
    ((applyFragment eC5 imgA5).name = some (some "N0") ∧
     (applyFragment eC5 imgA5).subtitle = some (some "S0") ∧
     (applyFragment eC5 imgA5).dock_location = some (some "D0") ∧
     (applyFragment eC5 imgA5).station_id_from_link_tags = some "11") ∧
    ((applyFragment (applyFragment eC5 linkA5) linkB5).name = some (some "B") ∧
     (applyFragment (applyFragment eC5 linkA5) linkB5).subtitle = some none ∧
     (applyFragment (applyFragment eC5 linkA5) linkB5).dock_location = some none ∧
     (applyFragment (applyFragment eC5 linkA5) linkB5).station_id_from_link_tags
       = some "77") ∧
    ((applyFragment (applyFragment eC5 imgA5) imgB5).terminal_name_from_image_tags
       = some none ∧
     (applyFragment (applyFragment eC5 imgA5) imgB5).point_name_from_image_tags
       = some (some "P2") ∧
     (applyFragment (applyFragment eC5 imgA5) imgB5).station_id_from_image_tags
       = some "88") := by
  have hL := C5_last_write_wins_kind_isolation eC5 linkA5 linkA5 linkB5
  have hI := C5_last_write_wins_kind_isolation eC5 imgA5 imgA5 imgB5
  exact ⟨hL.1 rfl, hI.2.1 rfl rfl, hL.2.2.1 rfl rfl, hI.2.2.2 rfl rfl rfl rfl⟩

lemma pyTruthy_some_iff (s : String) : pyTruthy (some s) = true ↔ s ≠ "" := by
  constructor
  · intro h he
    subst he
    exact absurd h (by decide)
  · intro h
    have hb : s.isEmpty = false := by
      cases hb : s.isEmpty
      · rfl
      · exact absurd ((String.isEmpty_iff s).mp hb) h
    simp [pyTruthy, hb]

lemma searchReleaseCode_ne_empty :
    ∀ (l : List Char) (u : String), searchReleaseCode l = some u → u ≠ "" := by
  intro l
  induction l with
  | nil => intro u h; simp [searchReleaseCode] at h
  | cons c rest ih =>
    intro u h
    simp only [searchReleaseCode] at h
    split at h
    · split at h
      · exact ih u h
      · rename_i hne
        injection h with h2
        intro hcontra
        apply hne
        rw [← h2] at hcontra
        have hd : ((c :: rest).drop relCodeLit.length).takeWhile Char.isDigit = [] :=
          congrArg String.data hcontra
        rw [hd]
        rfl
    · exact ih u h

lemma scanUnlock_ne_empty :
    ∀ (children : List Fragment) (u : String), scanUnlock children = some u → u ≠ "" := by
  intro children
  induction children with
  | nil => intro u h; simp [scanUnlock] at h
  | cons c rest ih =>
    intro u h
    simp only [scanUnlock] at h
    split at h
    · split at h
      · rename_i code hcode
        injection h with h2
        rw [← h2]
        exact searchReleaseCode_ne_empty _ code hcode
      · exact ih u h
    · exact ih u h

/-- C3 counterexample: the fragment list holds a caption-labelled fragment
carrying the subtitle "4821", yet extraction fails with the CodeNotFound
data error instead of returning a subtitle: the first caption fragment,
whose subtitle is empty, stops the caption scan and its falsy value falls
through to the unlockbar scan. -/
theorem C3_counterexample :
    (([{ name := some relCaption, subtitle := some "" },
       { name := some relCaption, subtitle := some "4821" }] : List Fragment).any
        (fun c => c.name == some relCaption && c.subtitle == some "4821")) = true ∧
    confirmHireParse
        [{ name := some relCaption, subtitle := some "" },
         { name := some relCaption, subtitle := some "4821" }] "Soho Sq" =
      .error (.dataError "Could not find release code for Soho Sq.") :=
  ⟨rfl, rfl⟩

/-- C3 (amended): extraction locates the first fragment whose label equals
the release-code caption and which carries a subtitle field; when that
subtitle is non-empty it is returned with highest precedence.  Only when no
such fragment exists, or the first one's subtitle is empty, does the
unlockbar numeric scan decide the outcome: its first captured group (always
non-empty) is returned, and if it finds nothing the call fails with the
CodeNotFound data error. -/
theorem C3_amended_release_code_extraction (children : List Fragment) (pn : String) :
    (∀ s, scanCaption children = some s → s ≠ "" →
        confirmHireParse children pn = .ok s) ∧
    ((scanCaption children = none ∨ scanCaption children = some "") →
        (∀ u, scanUnlock children = some u → confirmHireParse children pn = .ok u) ∧
        (scanUnlock children = none →
            confirmHireParse children pn =
              .error (.dataError ("Could not find release code for " ++ pn ++ ".")))) := by
  constructor
  · intro s hs hne
    have hts : pyTruthy (some s) = true := (pyTruthy_some_iff s).mpr hne
    simp [confirmHireParse, hs, hts]
  · intro hcap
    have hpe : pyTruthy (some "") = false := rfl
    have hf : pyTruthy (scanCaption children) = false := by
      rcases hcap with h | h <;> rw [h] <;> rfl
    constructor
    · intro u hu
      have hut : pyTruthy (some u) = true :=
        (pyTruthy_some_iff u).mpr (scanUnlock_ne_empty children u hu)
      rcases hcap with h | h <;>
        simp [confirmHireParse, h, hu, hut, hpe, show pyTruthy none = false from rfl]
    · intro hu
      rcases hcap with h | h <;>
        simp [confirmHireParse, h, hu, hpe, show pyTruthy none = false from rfl]

/-- Witness for C3 at the three concrete payload shapes of the spec. -/
theorem C3_amended_release_code_extraction_witness :
    confirmHireParse [{ name := some relCaption, subtitle := some "4821" }] "P" =
      .ok "4821" ∧
    confirmHireParse
        [{ id := some "foo_unlockbar", name := some "Release code 9013 issued" }] "P" =
      .ok "9013" ∧
    confirmHireParse [] "P" =
      .error (.dataError "Could not find release code for P.") := by
  refine ⟨?_, ?_, ?_⟩
  · exact (C3_amended_release_code_extraction
      [{ name := some relCaption, subtitle := some "4821" }] "P").1 "4821" rfl
      (by decide)
  · exact ((C3_amended_release_code_extraction
      [{ id := some "foo_unlockbar", name := some "Release code 9013 issued" }] "P").2
      (Or.inl rfl)).1 "9013" (by decide)
  · exact ((C3_amended_release_code_extraction [] "P").2 (Or.inl rfl)).2 rfl

lemma pyTruthy_some_ne (s : String) (h : s ≠ "") : pyTruthy (some s) = true :=
  (pyTruthy_some_iff s).mpr h

lemma getD_ne_of_truthy (o : Option String) (h : pyTruthy o = true) : o.getD "" ≠ "" := by
  cases o with
  | none => exact absurd h (by decide)
  | some s => exact (pyTruthy_some_iff s).mp h

lemma entryTagsOk_of_truthy (o : Option String) (h : pyTruthy o = true) :
    ∀ s, o = some s → s ≠ "" := by
  intro s hs
  rw [hs] at h
  exact (pyTruthy_some_iff s).mp h

lemma freshEntry_tagsOk (pid : String) : entryTagsOk (freshEntry pid) :=
  ⟨fun _ hs => by simp [freshEntry] at hs, fun _ hs => by simp [freshEntry] at hs⟩

lemma applyFragment_tagsOk (e : Entry) (c : Fragment) (h : entryTagsOk e) :
    entryTagsOk (applyFragment e c) := by
  obtain ⟨hl, hi⟩ := h
  by_cases h1 : c.type = some "Node.Link"
  · by_cases h2 : pyTruthy (tagsGet c.tags "LCHS.StationID") = true
    · have he : applyFragment e c =
          { e with
            name := some c.name,
            subtitle := some c.subtitle,
            dock_location := some (tagsGet c.tags "LCHS.DockLocation"),
            station_id_from_link_tags := tagsGet c.tags "LCHS.StationID" } := by
        simp [applyFragment, h1, h2]
      rw [he]
      exact ⟨entryTagsOk_of_truthy _ h2, hi⟩
    · have he : applyFragment e c =
          { e with
            name := some c.name,
            subtitle := some c.subtitle,
            dock_location := some (tagsGet c.tags "LCHS.DockLocation") } := by
        simp [applyFragment, h1, h2]
      rw [he]
      exact ⟨hl, hi⟩
  · by_cases h3 : c.type = some "Node.Media.Image" ∧ c.name = some "Hire now"
    · by_cases h4 : pyTruthy (tagsGet c.tags "StationID") = true
      · have he : applyFragment e c =
            { e with
              terminal_name_from_image_tags := some (tagsGet c.tags "Terminal"),
              point_name_from_image_tags := some (tagsGet c.tags "PointName"),
              station_id_from_image_tags := tagsGet c.tags "StationID" } := by
          simp [applyFragment, h1, h3, h4]
        rw [he]
        exact ⟨hl, entryTagsOk_of_truthy _ h4⟩
      · have he : applyFragment e c =
            { e with
              terminal_name_from_image_tags := some (tagsGet c.tags "Terminal"),
              point_name_from_image_tags := some (tagsGet c.tags "PointName") } := by
          simp [applyFragment, h1, h3, h4]
        rw [he]
        exact ⟨hl, hi⟩
    · have he : applyFragment e c = e := by
        simp [applyFragment, h1, h3]
      rw [he]
      exact ⟨hl, hi⟩

lemma upsertEntry_tagsOk (k pid : String) (c : Fragment) :
    ∀ (acc : List (String × Entry)), (∀ p ∈ acc, entryTagsOk p.2) →
      ∀ p ∈ upsertEntry acc k pid c, entryTagsOk p.2 := by
  intro acc
  induction acc with
  | nil =>
    intro _ p hp
    simp [upsertEntry] at hp
    subst hp
    exact applyFragment_tagsOk _ _ (freshEntry_tagsOk pid)
  | cons q rest ih =>
    obtain ⟨k', e⟩ := q
    intro hacc p hp
    by_cases hk : k' = k
    · subst hk
      simp [upsertEntry] at hp
      rcases hp with hp | hp
      · subst hp
        exact applyFragment_tagsOk _ _ (hacc (k', e) (by simp))
      · exact hacc p (List.mem_cons_of_mem _ hp)
    · simp [upsertEntry, hk] at hp
      rcases hp with hp | hp
      · subst hp
        exact hacc (k', e) (by simp)
      · exact ih (fun x hx => hacc x (List.mem_cons_of_mem _ hx)) p hp

lemma aggregate_tagsOk (children : List Fragment) :
    ∀ p ∈ aggregate children, entryTagsOk p.2 := by
  suffices h : ∀ acc, (∀ p ∈ acc, entryTagsOk p.2) →
      ∀ p ∈ children.foldl aggStep acc, entryTagsOk p.2 by
    exact h [] (by simp)
  induction children with
  | nil => intro acc hacc p hp; exact hacc p hp
  | cons c cs ih =>
    intro acc hacc p hp
    rw [List.foldl_cons] at hp
    refine ih (aggStep acc c) ?_ p hp
    intro q hq
    unfold aggStep at hq
    cases hk : extractGroupKey (c.id.getD "") with
    | none =>
      rw [hk] at hq
      exact hacc q hq
    | some kp =>
      obtain ⟨kk, pid⟩ := kp
      rw [hk] at hq
      exact upsertEntry_tagsOk kk pid c acc hacc q hq

lemma resolveEntry_eq_spec (e : Entry) (h : entryTagsOk e) :
    resolveEntry e = specResolveStation e := by
  obtain ⟨hl, hi⟩ := h
  have hst : pyOrElse e.station_id_from_image_tags
      (pyOrElse e.station_id_from_link_tags (some e.raw_station_id_from_id)) =
      some (match e.station_id_from_image_tags with
            | some s => s
            | none =>
              match e.station_id_from_link_tags with
              | some s => s
              | none => e.raw_station_id_from_id) := by
    cases him : e.station_id_from_image_tags with
    | some s => simp [pyOrElse, pyTruthy_some_ne s (hi s him)]
    | none =>
      cases hlk : e.station_id_from_link_tags with
      | some s =>
        simp [pyOrElse, pyTruthy_some_ne s (hl s hlk),
          show pyTruthy none = false from rfl]
      | none => simp [pyOrElse, show pyTruthy none = false from rfl]
  simp only [resolveEntry, specResolveStation]
  rw [hst]
  generalize (match e.station_id_from_image_tags with
      | some s => s
      | none =>
        match e.station_id_from_link_tags with
        | some s => s
        | none => e.raw_station_id_from_id) = S
  cases hn : Option.join e.name with
  | none => simp [pyOrElse, show pyTruthy none = false from rfl]
  | some nv =>
    by_cases hnv : nv = ""
    · subst hnv
      simp [pyOrElse, show pyTruthy (some "") = false from rfl]
    · cases hp : Option.join e.point_name_from_image_tags with
      | none =>
        by_cases hS0 : S = ""
        · subst hS0
          simp [pyOrElse, pyTruthy_some_ne nv hnv, hnv,
            show pyTruthy (some "") = false from rfl,
            show pyTruthy none = false from rfl]
        · simp [pyOrElse, pyTruthy_some_ne nv hnv, hnv,
            pyTruthy_some_ne S hS0, hS0, show pyTruthy none = false from rfl]
      | some pv =>
        by_cases hpv : pv = ""
        · subst hpv
          by_cases hS0 : S = ""
          · subst hS0
            simp [pyOrElse, pyTruthy_some_ne nv hnv, hnv,
              show pyTruthy (some "") = false from rfl]
          · simp [pyOrElse, pyTruthy_some_ne nv hnv, hnv,
              pyTruthy_some_ne S hS0, hS0,
              show pyTruthy (some "") = false from rfl]
        · by_cases hS0 : S = ""
          · subst hS0
            simp [pyOrElse, pyTruthy_some_ne nv hnv, hnv,
              pyTruthy_some_ne pv hpv, hpv,
              show pyTruthy (some "") = false from rfl]
          · simp [pyOrElse, pyTruthy_some_ne nv hnv, hnv,
              pyTruthy_some_ne pv hpv, hpv, pyTruthy_some_ne S hS0, hS0]

lemma resolveEntry_some_fields (e : Entry) (r : SearchedStationInfo)
    (h : resolveEntry e = some r) :
    r.station_id ≠ "" ∧ r.name ≠ "" ∧ r.point_name ≠ "" := by
  simp only [resolveEntry] at h
  split at h
  · rename_i hc
    rw [Bool.and_eq_true, Bool.and_eq_true] at hc
    obtain ⟨⟨hA, hB⟩, hC⟩ := hc
    injection h with h2
    subst h2
    exact ⟨getD_ne_of_truthy _ hA, getD_ne_of_truthy _ hB, getD_ne_of_truthy _ hC⟩
  · exact absurd h (by simp)

/-- C4: station-search resolution agrees pointwise with the spec-worded
priority resolver (`specResolveStation`): stationId falls back
image-tag id, link-tag id, then the numeric id parsed from the group key;
pointName is the image-tag point name when it carries a non-empty value,
else the link name; a group is emitted exactly when stationId, name and
pointName are all non-empty, dropped groups simply being filtered out; and
every emitted record has non-empty stationId, name and pointName. -/
theorem C4_priority_resolution_and_nonempty (children : List Fragment) :
    searchParse children =
      (aggregate children).filterMap (fun p => specResolveStation p.2) ∧
    ∀ r ∈ searchParse children,
      r.station_id ≠ "" ∧ r.name ≠ "" ∧ r.point_name ≠ "" := by
  constructor
  · unfold searchParse
    exact List.filterMap_congr
      (fun p hp => resolveEntry_eq_spec p.2 (aggregate_tagsOk children p hp))
  · intro r hr
    unfold searchParse at hr
    obtain ⟨p, hp, hres⟩ := List.mem_filterMap.mp hr
    exact resolveEntry_some_fields p.2 r hres

/-- Witness for C4 at the spec's two-fragment example. -/
theorem C4_priority_resolution_and_nonempty_witness :
    searchParse fragsC4 =
      (aggregate fragsC4).filterMap (fun p => specResolveStation p.2) ∧
    (recC4.station_id ≠ "" ∧ recC4.name ≠ "" ∧ recC4.point_name ≠ "") :=
  ⟨(C4_priority_resolution_and_nonempty fragsC4).1,
   (C4_priority_resolution_and_nonempty fragsC4).2 recC4 (by decide)⟩

lemma staticFinal_shape {f : String → String → SdkError} (key : String) (st : SdkState)
    (lastError : Option SdkError) (tr : List (String × String))
    (h : linkedTrace f lastError tr) :
    exhaustedShape f (staticFinal key st lastError tr).1
      (staticFinal key st lastError tr).2.2 := by
  rcases h with ⟨he, ht⟩ | ⟨p, hp, he⟩
  · subst he; subst ht
    exact Or.inl ⟨rfl, _, rfl⟩
  · subst he
    exact Or.inr ⟨p, hp, _, rfl⟩

lemma staticStrat3_shape {f : String → String → SdkError}
    (remote : String → String → Except SdkError String)
    (hfail : ∀ e t, remote e t = .error (f e t))
    (key : String) (loc : LocDetails) (t3 : Bool) (st : SdkState)
    (lastError : Option SdkError) (tr : List (String × String))
    (h : linkedTrace f lastError tr) :
    exhaustedShape f (staticStrat3 remote key loc t3 st lastError tr).1
      (staticStrat3 remote key loc t3 st lastError tr).2.2 := by
  unfold staticStrat3
  split_ifs with h3
  · split
    · rename_i e t he ht
      rw [hfail e t]
      exact staticFinal_shape key st _ _ (Or.inr ⟨(e, t), by simp, rfl⟩)
    · exact staticFinal_shape key st lastError tr h
    · exact staticFinal_shape key st lastError tr h
  · exact staticFinal_shape key st lastError tr h

lemma staticStrat2_shape {f : String → String → SdkError}
    (remote : String → String → Except SdkError String)
    (hfail : ∀ e t, remote e t = .error (f e t))
    (key : String) (loc : LocDetails) (freshTime : String) (t2 t3 : Bool)
    (st : SdkState) (lastError : Option SdkError) (tr : List (String × String))
    (h : linkedTrace f lastError tr) :
    exhaustedShape f (staticStrat2 remote key loc freshTime t2 t3 st lastError tr).1
      (staticStrat2 remote key loc freshTime t2 t3 st lastError tr).2.2 := by
  unfold staticStrat2
  split_ifs with h2
  · rw [hfail (st.encoding.getD "") freshTime]
    exact staticStrat3_shape remote hfail key loc t3 st _ _
      (Or.inr ⟨(st.encoding.getD "", freshTime), by simp, rfl⟩)
  · exact staticStrat3_shape remote hfail key loc t3 st lastError tr h

lemma searchFinal_shape {f : String → String → SdkError} (search_text : String)
    (st : SdkState) (lastError : Option SdkError) (tr : List (String × String))
    (h : linkedTrace f lastError tr) :
    exhaustedShape f (searchFinal search_text st lastError tr).1
      (searchFinal search_text st lastError tr).2.2 := by
  rcases h with ⟨he, ht⟩ | ⟨p, hp, he⟩
  · subst he; subst ht
    exact Or.inl ⟨rfl, _, rfl⟩
  · subst he
    exact Or.inr ⟨p, hp, _, rfl⟩

lemma searchStrat2_shape {f : String → String → SdkError}
    (remote : String → String → Except SdkError (List SearchedStationInfo))
    (hfail : ∀ e t, remote e t = .error (f e t))
    (search_text freshTime : String) (t2 : Bool) (st : SdkState)
    (lastError : Option SdkError) (tr : List (String × String))
    (h : linkedTrace f lastError tr) :
    exhaustedShape f (searchStrat2 remote search_text freshTime t2 st lastError tr).1
      (searchStrat2 remote search_text freshTime t2 st lastError tr).2.2 := by
  unfold searchStrat2
  split_ifs with h2
  · rw [hfail (st.encoding.getD "") freshTime]
    exact searchFinal_shape search_text st _ _
      (Or.inr ⟨(st.encoding.getD "", freshTime), by simp, rfl⟩)
  · exact searchFinal_shape search_text st lastError tr h

lemma searchStrat1_shape {f : String → String → SdkError}
    (remote : String → String → Except SdkError (List SearchedStationInfo))
    (hfail : ∀ e t, remote e t = .error (f e t))
    (search_text freshTime : String) (t1 t2 : Bool) (st : SdkState) :
    exhaustedShape f (searchStrat1 remote search_text freshTime t1 t2 st).1
      (searchStrat1 remote search_text freshTime t1 t2 st).2.2 := by
  unfold searchStrat1
  split_ifs with h1
  · rw [hfail (st.encoding.getD "") (st.origTime.getD "")]
    exact searchStrat2_shape remote hfail search_text freshTime t2 st _ _
      (Or.inr ⟨(st.encoding.getD "", st.origTime.getD ""), by simp, rfl⟩)
  · exact searchStrat2_shape remote hfail search_text freshTime t2 st none []
      (Or.inl ⟨rfl, rfl⟩)

lemma searchedFinal_shape {f : String → String → SdkError} (stationName : String)
    (st : SdkState) (lastError : Option SdkError) (tr : List (String × String))
    (h : linkedTrace f lastError tr) :
    exhaustedShape f (searchedFinal stationName st lastError tr).1
      (searchedFinal stationName st lastError tr).2.2 := by
  rcases h with ⟨he, ht⟩ | ⟨p, hp, he⟩
  · subst he; subst ht
    exact Or.inl ⟨rfl, _, rfl⟩
  · subst he
    exact Or.inr ⟨p, hp, _, rfl⟩

lemma searchedStrat2_shape {f : String → String → SdkError}
    (remote : String → String → Except SdkError String)
    (hfail : ∀ e t, remote e t = .error (f e t))
    (stationName freshTime : String) (t2 : Bool) (st : SdkState)
    (lastError : Option SdkError) (tr : List (String × String))
    (h : linkedTrace f lastError tr) :
    exhaustedShape f (searchedStrat2 remote stationName freshTime t2 st lastError tr).1
      (searchedStrat2 remote stationName freshTime t2 st lastError tr).2.2 := by
  unfold searchedStrat2
  split_ifs with h2
  · rw [hfail (st.encoding.getD "") freshTime]
    exact searchedFinal_shape stationName st _ _
      (Or.inr ⟨(st.encoding.getD "", freshTime), by simp, rfl⟩)
  · exact searchedFinal_shape stationName st lastError tr h

lemma searchedStrat1_shape {f : String → String → SdkError}
    (remote : String → String → Except SdkError String)
    (hfail : ∀ e t, remote e t = .error (f e t))
    (stationName freshTime : String) (t1 t2 : Bool) (st : SdkState) :
    exhaustedShape f (searchedStrat1 remote stationName freshTime t1 t2 st).1
      (searchedStrat1 remote stationName freshTime t1 t2 st).2.2 := by
  unfold searchedStrat1
  split_ifs with h1
  · rw [hfail (st.encoding.getD "") (st.origTime.getD "")]
    exact searchedStrat2_shape remote hfail stationName freshTime t2 st _ _
      (Or.inr ⟨(st.encoding.getD "", st.origTime.getD ""), by simp, rfl⟩)
  · exact searchedStrat2_shape remote hfail stationName freshTime t2 st none []
      (Or.inl ⟨rfl, rfl⟩)

/-- C7: when every remote attempt fails, each strategy-engine operation
ends in one of exactly two ways: with an empty attempt trace and a
configuration error (nothing was even tried), or with a non-empty trace and
a wrapping error that carries the underlying failure of the last dispatched
attempt — never a wrapping error with zero attempts. -/
theorem C7_exhaustion_vs_config
    (remoteC remoteC2 : String → String → Except SdkError String)
    (remoteS : String → String → Except SdkError (List SearchedStationInfo))
    (fC fC2 fS : String → String → SdkError)
    (data : List (String × LocDetails))
    (freshTime location_key search_text : String) (t1 t2 t3 : Bool)
    (ovE ovT ovE2 ovT2 : Option String) (pk : Option String)
    (station : SearchedStationInfo) (st : SdkState)
    (hC : ∀ e t, remoteC e t = .error (fC e t))
    (hS : ∀ e t, remoteS e t = .error (fS e t))
    (hC2 : ∀ e t, remoteC2 e t = .error (fC2 e t)) :
    exhaustedShape fC
      (runStaticRelease remoteC data freshTime location_key t1 t2 t3 st).1
      (runStaticRelease remoteC data freshTime location_key t1 t2 t3 st).2.2 ∧
    exhaustedShape fS
      (runSearchStations remoteS data freshTime search_text ovE ovT t1 t2 pk st).1
      (runSearchStations remoteS data freshTime search_text ovE ovT t1 t2 pk st).2.2 ∧
    exhaustedShape fC2
      (runSearchedRelease remoteC2 freshTime station ovE2 ovT2 t1 t2 st).1
      (runSearchedRelease remoteC2 freshTime station ovE2 ovT2 t1 t2 st).2.2 := by
  refine ⟨?_, ?_, ?_⟩
  · unfold runStaticRelease
    cases hl : lookupLoc data location_key with
    | none => exact Or.inl ⟨rfl, _, rfl⟩
    | some loc =>
      split_ifs with h1
      · rw [hC (st.encoding.getD "") (st.origTime.getD "")]
        exact staticStrat2_shape remoteC hC location_key loc freshTime t2 t3 st _ _
          (Or.inr ⟨(st.encoding.getD "", st.origTime.getD ""), by simp, rfl⟩)
      · exact staticStrat2_shape remoteC hC location_key loc freshTime t2 t3 st none []
          (Or.inl ⟨rfl, rfl⟩)
  · unfold runSearchStations
    by_cases hov : (pyTruthy ovE && pyTruthy ovT) = true
    · simp only [hov, if_true]
      rw [hS (ovE.getD "") (ovT.getD "")]
      exact Or.inr ⟨(ovE.getD "", ovT.getD ""), by simp, _, rfl⟩
    · simp only [Bool.not_eq_true] at hov
      simp only [hov, Bool.false_eq_true, if_false]
      exact searchStrat1_shape remoteS hS search_text freshTime t1 t2 _
  · unfold runSearchedRelease
    by_cases hterm : pyTruthy station.terminal_name = true
    · simp only [hterm, Bool.not_true, Bool.false_eq_true, if_false]
      by_cases hov : (pyTruthy ovE2 && pyTruthy ovT2) = true
      · simp only [hov, if_true]
        rw [hC2 (ovE2.getD "") (ovT2.getD "")]
        exact Or.inr ⟨(ovE2.getD "", ovT2.getD ""), by simp, _, rfl⟩
      · simp only [Bool.not_eq_true] at hov
        simp only [hov, Bool.false_eq_true, if_false]
        exact searchedStrat1_shape remoteC2 hC2 station.name freshTime t1 t2 st
    · simp only [Bool.not_eq_true] at hterm
      simp only [hterm, Bool.not_false, if_true]
      exact Or.inl ⟨rfl, _, rfl⟩

/-- Witness for C7 at a concrete always-failing remote and populated state. -/
theorem C7_exhaustion_vs_config_witness :
    exhaustedShape (fun e t => .apiError (e ++ ":" ++ t))
      (runStaticRelease (fun e t => .error (.apiError (e ++ ":" ++ t)))
        [("cromer_street",
          { terminal_name := "300205", point_name := "Cromer Street",
            c3_encoding := some "SE", c3_clienttime := some "ST" })]
        "1.5" "cromer_street" true true true
        { encoding := some "E", origTime := some "T", sourceInfo := some "user_set" }).1
      (runStaticRelease (fun e t => .error (.apiError (e ++ ":" ++ t)))
        [("cromer_street",
          { terminal_name := "300205", point_name := "Cromer Street",
            c3_encoding := some "SE", c3_clienttime := some "ST" })]
        "1.5" "cromer_street" true true true
        { encoding := some "E", origTime := some "T", sourceInfo := some "user_set" }).2.2 ∧
    exhaustedShape (fun e t => .apiError (e ++ ":" ++ t))
      (runSearchStations (fun e t => .error (.apiError (e ++ ":" ++ t)))
        [] "1.5" "soho" none none true true none
        { encoding := none, origTime := none, sourceInfo := none }).1
      (runSearchStations (fun e t => .error (.apiError (e ++ ":" ++ t)))
        [] "1.5" "soho" none none true true none
        { encoding := none, origTime := none, sourceInfo := none }).2.2 ∧
    exhaustedShape (fun e t => .apiError (e ++ ":" ++ t))
      (runSearchedRelease (fun e t => .error (.apiError (e ++ ":" ++ t)))
        "1.5"
        { station_id := "7", name := "Soho Sq", subtitle := none,
          terminal_name := some "300100", point_name := "Soho Sq",
          dock_location := none }
        none none true true
        { encoding := some "E", origTime := some "T", sourceInfo := some "user_set" }).1
      (runSearchedRelease (fun e t => .error (.apiError (e ++ ":" ++ t)))
        "1.5"
        { station_id := "7", name := "Soho Sq", subtitle := none,
          terminal_name := some "300100", point_name := "Soho Sq",
          dock_location := none }
        none none true true
        { encoding := some "E", origTime := some "T", sourceInfo := some "user_set" }).2.2 := by
  have h := C7_exhaustion_vs_config
    (fun e t => .error (.apiError (e ++ ":" ++ t)))
    (fun e t => .error (.apiError (e ++ ":" ++ t)))
    (fun e t => .error (.apiError (e ++ ":" ++ t)))
    (fun e t => .apiError (e ++ ":" ++ t)) (fun e t => .apiError (e ++ ":" ++ t))
    (fun e t => .apiError (e ++ ":" ++ t))
    [("cromer_street",
      { terminal_name := "300205", point_name := "Cromer Street",
        c3_encoding := some "SE", c3_clienttime := some "ST" })]
    "1.5" "cromer_street" "soho" true true true
    none none none none none
    { station_id := "7", name := "Soho Sq", subtitle := none,
      terminal_name := some "300100", point_name := "Soho Sq",
      dock_location := none }
    { encoding := some "E", origTime := some "T", sourceInfo := some "user_set" }
    (fun _ _ => rfl) (fun _ _ => rfl) (fun _ _ => rfl)
  obtain ⟨h1, h2, h3⟩ := h
  refine ⟨h1, ?_, h3⟩
  exact (C7_exhaustion_vs_config
    (fun e t => .error (.apiError (e ++ ":" ++ t)))
    (fun e t => .error (.apiError (e ++ ":" ++ t)))
    (fun e t => .error (.apiError (e ++ ":" ++ t)))
    (fun e t => .apiError (e ++ ":" ++ t)) (fun e t => .apiError (e ++ ":" ++ t))
    (fun e t => .apiError (e ++ ":" ++ t))
    [] "1.5" "x" "soho" true true true
    none none none none none
    { station_id := "7", name := "Soho Sq", subtitle := none,
      terminal_name := some "300100", point_name := "Soho Sq",
      dock_location := none }
    { encoding := none, origTime := none, sourceInfo := none }
    (fun _ _ => rfl) (fun _ _ => rfl) (fun _ _ => rfl)).2.1
